import Mathlib

/-!
Verification of the fosrl/apple bridging-header fragment.

The repository consists of four C header files:
  - src/PangolinGo/OSLogBridge.h              (initOSLogBridge, logToOSLog)
  - src/PacketTunnel/Shared/GoLoggerBridge.h  (goLogToOSLog)
  - src/PacketTunnel/Shared/PacketTunnel-Bridging-Header.h
  - src/PacketTunnel/PacketTunnel-Bridging-Header.h

Only declarations are present, no function bodies.  We embed the declared
signatures, the documented severity-level enumerations, the include structure
(conditional compilation and include guards), and — where a claim is about
behaviour whose implementation is not part of the fragment — a model built
from the specification's words, marked as such in its doc comment.
-/

namespace Apple

/-- C types that occur in the declared signatures: const char pointers,
plain int, and void. -/
inductive CType where
  | cstring
  | cint
  | cvoid
deriving DecidableEq

/-- One formal parameter of a declared C function. -/
structure CParam where
  pname : String
  ty : CType
deriving DecidableEq

/-- A declared C function: its name, parameter list and return type. -/
structure CFunDecl where
  fname : String
  params : List CParam
  ret : CType
deriving DecidableEq

/-- Declaration of initOSLogBridge from src/PangolinGo/OSLogBridge.h line 18:
void initOSLogBridge(const char* subsystem, const char* category). -/
def initOSLogBridge_decl : CFunDecl :=
  ⟨"initOSLogBridge",
   [⟨"subsystem", CType.cstring⟩, ⟨"category", CType.cstring⟩],
   CType.cvoid⟩

/-- Declaration of logToOSLog from src/PangolinGo/OSLogBridge.h line 22:
void logToOSLog(int level, const char* message). -/
def logToOSLog_decl : CFunDecl :=
  ⟨"logToOSLog",
   [⟨"level", CType.cint⟩, ⟨"message", CType.cstring⟩],
   CType.cvoid⟩

/-- Declaration of goLogToOSLog from src/PacketTunnel/Shared/GoLoggerBridge.h
line 18: void goLogToOSLog(const char* subsystem, const char* category,
int level, const char* message). -/
def goLogToOSLog_decl : CFunDecl :=
  ⟨"goLogToOSLog",
   [⟨"subsystem", CType.cstring⟩, ⟨"category", CType.cstring⟩,
    ⟨"level", CType.cint⟩, ⟨"message", CType.cstring⟩],
   CType.cvoid⟩

/-- The functions declared by src/PangolinGo/OSLogBridge.h, in order. -/
def OSLogBridge_decls : List CFunDecl := [initOSLogBridge_decl, logToOSLog_decl]

/-- The functions declared by src/PacketTunnel/Shared/GoLoggerBridge.h. -/
def GoLoggerBridge_decls : List CFunDecl := [goLogToOSLog_decl]

/-- Every logging-bridge function declared across the two logging headers. -/
def allLoggingDecls : List CFunDecl := OSLogBridge_decls ++ GoLoggerBridge_decls

/-- The severity names that appear in the two headers' level documentation.
OSLogBridge.h documents DEBUG, INFO, WARN, ERROR; GoLoggerBridge.h documents
debug, info, default, error, fault (dflt stands for the os_log default level). -/
inductive Severity where
  | debug
  | info
  | warn
  | error
  | dflt
  | fault
deriving DecidableEq

/-- The integer-to-severity mapping documented at src/PangolinGo/OSLogBridge.h
line 21: level: 0=DEBUG, 1=INFO, 2=WARN, 3=ERROR. -/
def logToOSLogLevel (l : Int) : Option Severity :=
  if l = 0 then some Severity.debug
  else if l = 1 then some Severity.info
  else if l = 2 then some Severity.warn
  else if l = 3 then some Severity.error
  else none

/-- The integer-to-severity mapping documented at
src/PacketTunnel/Shared/GoLoggerBridge.h line 16:
level: log level (0=debug, 1=info, 2=default, 3=error, 4=fault). -/
def goLogToOSLogLevel (l : Int) : Option Severity :=
  if l = 0 then some Severity.debug
  else if l = 1 then some Severity.info
  else if l = 2 then some Severity.dflt
  else if l = 3 then some Severity.error
  else if l = 4 then some Severity.fault
  else none

/-- One entry of the OS-managed log stream: the subsystem, category, level and
message forwarded by a logging call. -/
structure LogEntry where
  subsystem : String
  category : String
  level : Int
  message : String
deriving DecidableEq

/-- Modelled from the spec: the implementation bodies of the logging bridge are
not part of the fragment (only the headers are).  Per the spec, an
initialization entry point establishes the subsystem/category context once,
subsequent log calls reuse it, and the OS-managed log stream receives the
forwarded entries.  The bridge-owned state is the optional context; the log
stream is OS-managed. -/
structure BridgeState where
  context : Option (String × String)
  osLog : List LogEntry
deriving DecidableEq

/-- Modelled from the spec: whether a call returned normally to the caller.
Logging is best-effort and never raises, so the model wraps results in Except
and a call is accepted when it is Except.ok. -/
def isAccepted {α β : Type} : Except α β → Bool
  | Except.ok _ => true
  | Except.error _ => false

/-- Modelled from the spec: initOSLogBridge's body is not in the fragment.
It establishes the subsystem/category context and returns normally. -/
def initOSLogBridge (subsystem category : String) (s : BridgeState) :
    Except String BridgeState :=
  Except.ok ⟨some (subsystem, category), s.osLog⟩

/-- Modelled from the spec: logToOSLog's body is not in the fragment.  It
forwards one entry under the established context to the OS-managed log stream,
leaves the bridge context unchanged, and returns normally (best-effort, never
raises to the caller). -/
def logToOSLog (level : Int) (message : String) (s : BridgeState) :
    Except String BridgeState :=
  Except.ok
    ⟨s.context,
     s.osLog ++ [⟨(s.context.getD ("", "")).1, (s.context.getD ("", "")).2,
                 level, message⟩]⟩

/-- Modelled from the spec: goLogToOSLog's body is not in the fragment.  It is
the per-call variant: it takes subsystem and category on every call, requires
no prior initialization, touches no bridge-owned state, appends one entry to
the OS-managed log stream and returns normally. -/
def goLogToOSLog (subsystem category : String) (level : Int) (message : String)
    (s : BridgeState) : Except String BridgeState :=
  Except.ok ⟨s.context, s.osLog ++ [⟨subsystem, category, level, message⟩]⟩

/-- Run a sequence of logToOSLog calls (level, message pairs) in order. -/
def runLogCalls (calls : List (Int × String)) (s : BridgeState) : BridgeState :=
  match calls with
  | [] => s
  | (lvl, msg) :: rest =>
      match logToOSLog lvl msg s with
      | Except.ok s1 => runLogCalls rest s1
      | Except.error _ => s

/-- The Darwin address family for kernel control sockets (AF_SYSTEM). -/
def AF_SYSTEM : Nat := 32

/-- Modelled from the spec: TunnelFileDescriptor.h is included by the bridging
headers but its source is not part of the fragment.  Per the spec, discovery
queries peer socket information (getpeername) and issues a device-control
(ioctl) request against candidate descriptors.  The environment records, for
each descriptor, the peer address family reported by getpeername (none when
the query fails) and whether the ioctl control request succeeds. -/
structure SocketEnv where
  maxFd : Nat
  peerFamily : Nat → Option Nat
  ctlOk : Nat → Bool

/-- Modelled from the spec: the discovery operation, given no durable state,
scans candidate descriptors and returns the first one whose peer socket
information reports the AF_SYSTEM control family and whose device-control
request succeeds; it returns a failure indicator (none) when no descriptor
qualifies. -/
def findTunnelFd (env : SocketEnv) : Option Nat :=
  (List.range (env.maxFd + 1)).find?
    (fun fd => env.peerFamily fd == some AF_SYSTEM && env.ctlOk fd)

/-- The two bridging-header variants in the repository. -/
inductive HeaderVariant where
  | packetTunnel
  | sharedPacketTunnel
deriving DecidableEq

/-- The includes used for tunnel file-descriptor discovery:
TunnelFileDescriptor.h, sys/socket.h, sys/ioctl.h and string.h. -/
def discoveryIncludes : List String :=
  ["TunnelFileDescriptor.h", "sys/socket.h", "sys/ioctl.h", "string.h"]

/-- The include list of each bridging-header variant as a function of the
TARGET_OS_OSX and TARGET_OS_MAC preprocessor conditions.
src/PacketTunnel/PacketTunnel-Bridging-Header.h includes
TunnelFileDescriptor.h, GoLoggerBridge.h and the socket, ioctl and string
headers unconditionally;
src/PacketTunnel/Shared/PacketTunnel-Bridging-Header.h always includes
GoLoggerBridge.h and includes the discovery headers only inside the
TARGET_OS_OSX or TARGET_OS_MAC conditional. -/
def bridgingHeaderIncludes : HeaderVariant → Bool → Bool → List String
  | HeaderVariant.packetTunnel, _, _ =>
      ["TunnelFileDescriptor.h", "GoLoggerBridge.h",
       "sys/socket.h", "sys/ioctl.h", "string.h"]
  | HeaderVariant.sharedPacketTunnel, osx, mac =>
      "GoLoggerBridge.h" :: (if osx || mac then discoveryIncludes else [])

/-- A header protected by a classic ifndef/define include guard: the guard
macro name, and the body emitted when the guard is not yet defined. -/
structure GuardedHeader where
  guardName : String
  body : List String
deriving DecidableEq

/-- C preprocessor semantics of including one guarded header: if the guard
macro is already defined nothing is emitted; otherwise the guard is defined
and the body is emitted. -/
def processInclude (h : GuardedHeader) (defined : List String) :
    List String × List String :=
  if h.guardName ∈ defined then (defined, [])
  else (h.guardName :: defined, h.body)

/-- Process a sequence of includes in one translation unit, threading the set
of defined guard macros and concatenating the emitted declarations. -/
def processIncludes (hs : List GuardedHeader) (defined : List String) :
    List String × List String :=
  match hs with
  | [] => (defined, [])
  | h :: rest =>
      let step := processInclude h defined
      let restOut := processIncludes rest step.1
      (restOut.1, step.2 ++ restOut.2)

/-- src/PangolinGo/OSLogBridge.h as a guarded header: guard OSLogBridge_h,
declaring initOSLogBridge and logToOSLog. -/
def OSLogBridge_header : GuardedHeader :=
  ⟨"OSLogBridge_h", ["initOSLogBridge", "logToOSLog"]⟩

/-- src/PacketTunnel/Shared/GoLoggerBridge.h as a guarded header: guard
GoLoggerBridge_h, declaring goLogToOSLog. -/
def GoLoggerBridge_header : GuardedHeader :=
  ⟨"GoLoggerBridge_h", ["goLogToOSLog"]⟩

/-- src/PacketTunnel/PacketTunnel-Bridging-Header.h as a guarded header:
guard PacketTunnel_Bridging_Header_h, body its unconditional include list. -/
def PacketTunnelBridging_header : GuardedHeader :=
  ⟨"PacketTunnel_Bridging_Header_h",
   bridgingHeaderIncludes HeaderVariant.packetTunnel true true⟩

/-- src/PacketTunnel/Shared/PacketTunnel-Bridging-Header.h as a guarded
header: guard PacketTunnel_Bridging_Header_h, body its include list under the
given TARGET_OS_OSX and TARGET_OS_MAC conditions. -/
def SharedBridging_header (osx mac : Bool) : GuardedHeader :=
  ⟨"PacketTunnel_Bridging_Header_h",
   bridgingHeaderIncludes HeaderVariant.sharedPacketTunnel osx mac⟩

theorem runLogCalls_context (calls : List (Int × String)) (s : BridgeState) :
    (runLogCalls calls s).context = s.context := by
  induction calls generalizing s with
  | nil => rfl
  | cons c rest ih =>
      obtain ⟨lvl, msg⟩ := c
      simpa [runLogCalls, logToOSLog] using ih _

theorem processInclude_twice (h : GuardedHeader) (defined : List String) :
    (processIncludes [h, h] defined).2 = (processIncludes [h] defined).2 := by
  by_cases hm : h.guardName ∈ defined <;>
    simp [processIncludes, processInclude, hm]

/-- C1: the two logging headers document inconsistent severity enumerations:
logToOSLog documents 0=debug, 1=info, 2=warn, 3=error while goLogToOSLog
documents 0=debug, 1=info, 2=default, 3=error, 4=fault; both map 3 to error
but the two severity sets differ. -/
theorem claim_C1_severity_enums_inconsistent :
    logToOSLogLevel 3 = some Severity.error ∧
    goLogToOSLogLevel 3 = some Severity.error ∧
    (List.range 5).filterMap (fun n => logToOSLogLevel (Int.ofNat n))
      = [Severity.debug, Severity.info, Severity.warn, Severity.error] ∧
    (List.range 5).filterMap (fun n => goLogToOSLogLevel (Int.ofNat n))
      = [Severity.debug, Severity.info, Severity.dflt,
         Severity.error, Severity.fault] ∧
    [Severity.debug, Severity.info, Severity.warn, Severity.error]
      ≠ [Severity.debug, Severity.info, Severity.dflt,
         Severity.error, Severity.fault] := by
  decide

/-- C2: initOSLogBridge is declared taking a subsystem string and a category
string and returning void; goLogToOSLog is declared taking a subsystem string,
a category string, an int level and a message string and returning void; and
GoLoggerBridge.h declares exactly goLogToOSLog, in particular no init
function, so the per-call variant requires no prior initialization. -/
theorem claim_C2_declared_entry_points :
    initOSLogBridge_decl ∈ OSLogBridge_decls ∧
    initOSLogBridge_decl
      = ⟨"initOSLogBridge",
         [⟨"subsystem", CType.cstring⟩, ⟨"category", CType.cstring⟩],
         CType.cvoid⟩ ∧
    GoLoggerBridge_decls = [goLogToOSLog_decl] ∧
    goLogToOSLog_decl
      = ⟨"goLogToOSLog",
         [⟨"subsystem", CType.cstring⟩, ⟨"category", CType.cstring⟩,
          ⟨"level", CType.cint⟩, ⟨"message", CType.cstring⟩],
         CType.cvoid⟩ ∧
    GoLoggerBridge_decls.all
      (fun d => !(List.isPrefixOf "init".data d.fname.data)) = true := by
  decide

/-- C3: every declared logging function, initOSLogBridge, logToOSLog and
goLogToOSLog, has return type void, so no error information can flow back to
the caller through the declared interface. -/
theorem claim_C3_all_return_void :
    allLoggingDecls.map CFunDecl.fname
      = ["initOSLogBridge", "logToOSLog", "goLogToOSLog"] ∧
    allLoggingDecls.all (fun d => d.ret == CType.cvoid) = true := by
  decide

/-- C4: for every severity integer defined by either enumeration and for any
subsystem, category and message strings (of length zero as well as of typical
length), each logging-bridge call is accepted and returns normally, raising no
error to the caller. -/
theorem claim_C4_calls_accepted (level : Int) (s : BridgeState)
    (sub cat msg : String)
    (h : (logToOSLogLevel level).isSome = true ∨
         (goLogToOSLogLevel level).isSome = true) :
    isAccepted (initOSLogBridge sub cat s) = true ∧
    isAccepted (logToOSLog level msg s) = true ∧
    isAccepted (goLogToOSLog sub cat level msg s) = true :=
  ⟨rfl, rfl, rfl⟩

/-- Witness for C4 at level 0 and empty strings from the empty state. -/
theorem claim_C4_calls_accepted_witness :
    isAccepted (initOSLogBridge "" "" ⟨none, []⟩) = true ∧
    isAccepted (logToOSLog 0 "" ⟨none, []⟩) = true ∧
    isAccepted (goLogToOSLog "" "" 0 "" ⟨none, []⟩) = true :=
  claim_C4_calls_accepted 0 ⟨none, []⟩ "" "" "" (Or.inl (by decide))

/-- C5: after initOSLogBridge establishes the subsystem/category context,
every subsequent sequence of logToOSLog calls leaves that context unchanged:
repeated log calls reuse the context established once at initialization. -/
theorem claim_C5_context_persistent (sub cat : String) (s : BridgeState)
    (calls : List (Int × String)) :
    (initOSLogBridge sub cat s).map (fun s1 => (runLogCalls calls s1).context)
      = Except.ok (some (sub, cat)) := by
  simp [initOSLogBridge, Except.map, runLogCalls_context]

/-- C6: goLogToOSLog is stateless and idempotent with respect to the bridge's
own state: its only effect is appending one entry to the OS-managed log
stream, it leaves the bridge-owned context untouched, and repeating the
identical call leaves the bridge-owned state the same as a single call. -/
theorem claim_C6_stateless_idempotent (sub cat : String) (lvl : Int)
    (msg : String) (s : BridgeState) :
    goLogToOSLog sub cat lvl msg s
      = Except.ok ⟨s.context, s.osLog ++ [⟨sub, cat, lvl, msg⟩]⟩ ∧
    (goLogToOSLog sub cat lvl msg s).map BridgeState.context
      = Except.ok s.context ∧
    ((goLogToOSLog sub cat lvl msg s).bind
        (fun s1 => goLogToOSLog sub cat lvl msg s1)).map BridgeState.context
      = (goLogToOSLog sub cat lvl msg s).map BridgeState.context :=
  ⟨rfl, rfl, rfl⟩

/-- C7: the tunnel file-descriptor discovery operation, a pure function of
the socket environment with no durable state, returns either a file
descriptor located by the peer-socket query (reporting the AF_SYSTEM control
family) together with a successful device-control request, or a failure
indicator. -/
theorem claim_C7_discovery_result (env : SocketEnv) :
    (∃ fd, findTunnelFd env = some fd ∧
        env.peerFamily fd = some AF_SYSTEM ∧ env.ctlOk fd = true) ∨
    findTunnelFd env = none := by
  cases hfd : findTunnelFd env with
  | none => exact Or.inr rfl
  | some fd =>
      left
      have h := List.find?_some hfd
      simp only [Bool.and_eq_true, beq_iff_eq] at h
      exact ⟨fd, rfl, h.1, h.2⟩

/-- C8: the PacketTunnel bridging-header variant includes
TunnelFileDescriptor.h and the socket, ioctl and string headers
unconditionally, while the Shared variant always includes the logger bridge
and includes the discovery headers exactly when TARGET_OS_OSX or
TARGET_OS_MAC holds. -/
theorem claim_C8_conditional_compilation (osx mac : Bool) :
    bridgingHeaderIncludes HeaderVariant.packetTunnel osx mac
      = ["TunnelFileDescriptor.h", "GoLoggerBridge.h",
         "sys/socket.h", "sys/ioctl.h", "string.h"] ∧
    "GoLoggerBridge.h" ∈ bridgingHeaderIncludes
        HeaderVariant.sharedPacketTunnel osx mac ∧
    (discoveryIncludes.all
        (fun h =>
          (bridgingHeaderIncludes HeaderVariant.sharedPacketTunnel osx mac).contains h)
      = (osx || mac)) := by
  cases osx <;> cases mac <;> decide

/-- C9: each header of the fragment carries an include guard (OSLogBridge_h,
GoLoggerBridge_h, PacketTunnel_Bridging_Header_h), so under C preprocessor
semantics including any of them twice in one translation unit emits exactly
the declarations of a single inclusion. -/
theorem claim_C9_include_guards_idempotent (defined : List String)
    (osx mac : Bool) :
    OSLogBridge_header.guardName = "OSLogBridge_h" ∧
    GoLoggerBridge_header.guardName = "GoLoggerBridge_h" ∧
    PacketTunnelBridging_header.guardName = "PacketTunnel_Bridging_Header_h" ∧
    (SharedBridging_header osx mac).guardName
      = "PacketTunnel_Bridging_Header_h" ∧
    (processIncludes [OSLogBridge_header, OSLogBridge_header] defined).2
      = (processIncludes [OSLogBridge_header] defined).2 ∧
    (processIncludes [GoLoggerBridge_header, GoLoggerBridge_header] defined).2
      = (processIncludes [GoLoggerBridge_header] defined).2 ∧
    (processIncludes [PacketTunnelBridging_header, PacketTunnelBridging_header]
        defined).2
      = (processIncludes [PacketTunnelBridging_header] defined).2 ∧
    (processIncludes [SharedBridging_header osx mac, SharedBridging_header osx mac]
        defined).2
      = (processIncludes [SharedBridging_header osx mac] defined).2 :=
  ⟨rfl, rfl, rfl, rfl,
   processInclude_twice _ _, processInclude_twice _ _,
   processInclude_twice _ _, processInclude_twice _ _⟩

/-- C10: the level parameter of logToOSLog and of goLogToOSLog is declared as
a plain C int with no range restriction, and the interface accepts every
integer level, including values outside the documented severity sets. -/
theorem claim_C10_level_is_plain_int (lvl : Int) :
    (⟨"level", CType.cint⟩ : CParam) ∈ logToOSLog_decl.params ∧
    (⟨"level", CType.cint⟩ : CParam) ∈ goLogToOSLog_decl.params ∧
    isAccepted (logToOSLog lvl "" ⟨none, []⟩) = true ∧
    isAccepted (goLogToOSLog "" "" lvl "" ⟨none, []⟩) = true :=
  ⟨by decide, by decide, rfl, rfl⟩

end Apple
